import Mathlib

/-!
Verification of the transcript-acquisition and summarization core of the
yt-audio-to-text-converter repository, as a shallow embedding in Lean 4.

Conventions of the embedding:
* Python strings are Lean `String`s (`List Char` underneath); the handful of
  string operations the code uses (`str.strip`, f-string timestamp layout,
  `"\n".join`) are modelled character by character.
* Python floats that only ever hold second offsets are modelled as `ℚ`;
  `int(x)` is truncation toward zero, `//` and `%` on the resulting ints are
  Python floor division and modulus, i.e. `Int.ediv` / `Int.emod` for the
  positive divisors used here.
* Fallible calls return `Except PyExc _`; a raised exception is `.error e`.
  External collaborators (the caption API, yt-dlp, the Whisper model, the
  Gemini client, the two summarization HTTP endpoints) are oracles supplied
  as explicit environment records, while all control flow is translated from
  the repository source.
-/

/-- The exception values the embedded fragments distinguish. `other` carries
the `str(e)` rendering used when an exception is converted to a message. -/
inductive PyExc where
  | attributeError
  | unboundLocalError
  | nameError
  | validationError
  | audioDownloadError
  | other (msg : String)
deriving DecidableEq, Repr

/-- The ASCII whitespace characters removed by Python `str.strip()`
(space, tab, newline, carriage return, vertical tab, form feed). -/
def pyWhitespace (c : Char) : Bool :=
  c = ' ' || c = '\t' || c = '\n' || c = '\r' || c = '\x0b' || c = '\x0c'

/-- Python `str.strip()` on the underlying character list. -/
def pyStripList (l : List Char) : List Char :=
  ((l.dropWhile pyWhitespace).reverse.dropWhile pyWhitespace).reverse

/-- Python `str.strip()`. -/
def pyStrip (s : String) : String :=
  String.mk (pyStripList s.toList)

/-- Decimal digit character for `d % 10`. -/
def digitChar (d : ℕ) : Char :=
  Char.ofNat (48 + d % 10)

/-- Decimal rendering worker; `fuel ≥ n` makes the fuel inexhaustible
because the argument shrinks by a factor of ten each step. -/
def natDigitsAux : ℕ → ℕ → List Char
  | 0, _ => []
  | fuel + 1, n =>
    if n < 10 then [digitChar n]
    else natDigitsAux fuel (n / 10) ++ [digitChar (n % 10)]

/-- Decimal rendering of a natural number, most significant digit first. -/
def natDigits (n : ℕ) : List Char :=
  natDigitsAux (n + 1) n

/-- Python `str(i)` for an int: optional minus sign then decimal digits. -/
def intRender (i : ℤ) : List Char :=
  if i < 0 then '-' :: natDigits (-i).toNat else natDigits i.toNat

/-- Python `f"{i:02d}"`: pad to width two with a leading zero; only a
single nonnegative digit is shorter than two characters. -/
def pyFormat02d (i : ℤ) : List Char :=
  if 0 ≤ i ∧ i < 10 then '0' :: natDigits i.toNat else intRender i

/-- Python `int(x)` for a rational `x`: truncation toward zero. -/
def pyInt (q : ℚ) : ℤ :=
  if q.num < 0 then -(((-q.num).toNat / q.den : ℕ) : ℤ)
  else ((q.num.toNat / q.den : ℕ) : ℤ)

/-- The character list rendered by `format_seconds` (the `[MM:SS]` or
`[HH:MM:SS]` token). -/
def formatSecondsL (seconds : ℚ) : List Char :=
  let s : ℤ := pyInt seconds
  let hours : ℤ := Int.ediv s 3600
  let minutes : ℤ := Int.ediv (Int.emod s 3600) 60
  let secs : ℤ := Int.emod s 60
  if 0 < hours then
    '[' :: (pyFormat02d hours ++ ':' :: pyFormat02d minutes ++ ':' :: pyFormat02d secs ++ [ ']' ])
  else
    '[' :: (pyFormat02d minutes ++ ':' :: pyFormat02d secs ++ [ ']' ])

/-- `format_seconds` from `src/app/utils/formatting.py`: convert seconds to
`[MM:SS]` or `[HH:MM:SS]`, the hour segment shown only when `hours > 0`. -/
def format_seconds (seconds : ℚ) : String :=
  String.mk (formatSecondsL seconds)

/-- Python `"\n".join(lines)` at the character level. -/
def joinNewline : List (List Char) → List Char
  | [] => []
  | [x] => x
  | x :: y :: rest => x ++ '\n' :: joinNewline (y :: rest)

/-- The caption formatting loop of `get_youtube_transcript`
(`src/app/services/youtube_service.py`): keep items whose text has
non-whitespace content, prefix each with `format_seconds(start)` and a
space (the original, unstripped text is kept), and join with newlines. -/
def formatCaptionLines (items : List (ℚ × List Char)) : String :=
  String.mk (joinNewline
    ((items.filter (fun it => pyStripList it.2 ≠ [])).map
      (fun it => formatSecondsL it.1 ++ ' ' :: it.2)))

/-- The segment formatting loop of `transcribe_with_whisper`
(`src/app/services/transcription_service.py`): strip each segment text,
drop empty ones, prefix with the timestamp, join with newlines. -/
def formatWhisperSegments (segs : List (ℚ × List Char)) : String :=
  String.mk (joinNewline
    (segs.filterMap (fun sg =>
      let t := pyStripList sg.2
      if t = [] then none else some (formatSecondsL sg.1 ++ ' ' :: t))))

/-- `RateLimiter.is_allowed` from `src/app/middleware/rate_limiter.py`,
for one identifier: the per-identifier deque of request timestamps is the
list (front first); timestamps strictly older than `now - window` are
popped, then the request is rejected when `limit` many remain, otherwise
`now` is appended. Returns the decision and the updated deque. -/
def isAllowed (times : List ℚ) (now : ℚ) (limit : ℕ) (window : ℚ) : Bool × List ℚ :=
  let cutoff := now - window
  let pruned := times.dropWhile (fun t => decide (t < cutoff))
  if limit ≤ pruned.length then (false, pruned)
  else (true, pruned ++ [now])

/-! ## Retry decorator (`src/app/utils/decorators.py`, `retry`) -/

/-- Observable trace of one run of the function wrapped by `@retry`:
the returned value or raised exception, how many times the wrapped
function was invoked, and the sequence of sleeps performed between
attempts. `result = .ok none` models the Python wrapper falling off the
loop and returning `None`, which only happens when `max_attempts = 0`. -/
structure RetryTrace (α : Type) where
  result : Except PyExc (Option α)
  calls : ℕ
  sleeps : List ℚ
deriving Repr

/-- The retry loop from attempt `attempt` on, with `fuel` further attempts
allowed after the current one (`fuel = max_attempts - attempt`).
`op k` is the outcome of the `k`-th invocation of the wrapped function and
`isMatch` is membership in the `exceptions` allow-list of the decorator;
a non-matching exception is not caught and propagates at once.  On a
matching exception with attempts left the wrapper sleeps `d` and retries
with delay `d * backoff`; on the final attempt it re-raises unchanged. -/
def retryGo (op : ℕ → Except PyExc α) (isMatch : PyExc → Bool) (backoff : ℚ) :
    ℕ → ℕ → ℚ → RetryTrace α
  | 0, attempt, _ =>
    match op attempt with
    | .ok a => ⟨.ok (some a), 1, []⟩
    | .error e =>
      if isMatch e then ⟨.error e, 1, []⟩ else ⟨.error e, 1, []⟩
  | fuel + 1, attempt, d =>
    match op attempt with
    | .ok a => ⟨.ok (some a), 1, []⟩
    | .error e =>
      if isMatch e then
        let t := retryGo op isMatch backoff fuel (attempt + 1) (d * backoff)
        ⟨t.result, t.calls + 1, d :: t.sleeps⟩
      else ⟨.error e, 1, []⟩

/-- The `retry(max_attempts, delay, backoff, exceptions)` decorator applied
to an operation whose `k`-th invocation yields `op k`. -/
def retry (op : ℕ → Except PyExc α) (isMatch : PyExc → Bool)
    (maxAttempts : ℕ) (delay backoff : ℚ) : RetryTrace α :=
  match maxAttempts with
  | 0 => ⟨.ok none, 0, []⟩
  | m + 1 => retryGo op isMatch backoff m 1 delay

/-! ## URL validation and video-id extraction
(`src/app/validators.py` `validate_youtube_url`,
`src/app/services/youtube_service.py` `extract_video_id`)

Both functions are concrete regular expressions.  They are modelled
character by character, parameterized by the predicate `w` that decides
Python `\w` membership (both regexes use the same `\w`, so nothing below
depends on its exact extension).  The patterns are alternations of string
literals with no overlap against the optional prefixes, so greedy matching
with backtracking coincides with the deterministic prefix-stripping coded
here. -/

/-- The character class `[\w-]` used by both regexes. -/
def isWordDash (w : Char → Bool) (c : Char) : Bool :=
  w c || c = '-'

/-- `youtube.com/watch?v=` literal shared by validator pattern 1 and the
first extraction alternative. -/
def watchLit : List Char := "youtube.com/watch?v=".toList

/-- `youtu.be/` literal of validator pattern 2 and extraction alternative 2. -/
def shortLit : List Char := "youtu.be/".toList

/-- `youtube.com/embed/` literal of validator pattern 3 and extraction
alternative 3. -/
def embedLit : List Char := "youtube.com/embed/".toList

/-- `https://` spelling of the optional scheme group `(?:https?://)?`. -/
def httpsLit : List Char := "https://".toList

/-- `http://` spelling of the optional scheme group. -/
def httpLit : List Char := "http://".toList

/-- The optional `(?:www\.)?` group. -/
def wwwLit : List Char := "www.".toList

/-- Consume a literal at the head of the input, or fail. -/
def dropLit (lit l : List Char) : Option (List Char) :=
  if lit.isPrefixOf l then some (l.drop lit.length) else none

/-- Consume the optional scheme `(?:https?://)?`. -/
def stripScheme (l : List Char) : List Char :=
  match dropLit httpsLit l with
  | some rest => rest
  | none =>
    match dropLit httpLit l with
    | some rest => rest
    | none => l

/-- Consume the optional `(?:www\.)?`. -/
def stripWww (l : List Char) : List Char :=
  match dropLit wwwLit l with
  | some rest => rest
  | none => l

/-- After the optional groups: the pattern-specific literal followed by at
least one `[\w-]` character (`re.match` leaves the tail unconstrained). -/
def matchTail (w : Char → Bool) (lit l : List Char) : Bool :=
  match dropLit lit l with
  | some (c :: _) => isWordDash w c
  | some [] => false
  | none => false

/-- `re.match` of one of the three validator patterns against the input. -/
def reMatchYoutubePattern (w : Char → Bool) (lit l : List Char) : Bool :=
  matchTail w lit (stripWww (stripScheme l))

/-- The message `ERROR_INVALID_URL` from `src/app/constants.py`. -/
def ERROR_INVALID_URL : String := "Invalid YouTube URL"

/-- `validate_youtube_url`: reject empty or all-whitespace input, then try
the three patterns with `re.match` against the stripped URL. -/
def validate_youtube_url (w : Char → Bool) (url : List Char) : Bool × Option String :=
  if url = [] ∨ pyStripList url = [] then (false, some ERROR_INVALID_URL)
  else if reMatchYoutubePattern w watchLit (pyStripList url)
      || reMatchYoutubePattern w shortLit (pyStripList url)
      || reMatchYoutubePattern w embedLit (pyStripList url) then
    (true, none)
  else (false, some ERROR_INVALID_URL)

/-- One alternative of the extraction regex at a fixed position: the
literal, then a maximal nonempty run of `[\w-]` forming group 1. -/
def tryAlt (w : Char → Bool) (lit l : List Char) : Option (List Char) :=
  match dropLit lit l with
  | some (c :: rest) =>
    if isWordDash w c then some ((c :: rest).takeWhile (isWordDash w)) else none
  | some [] => none
  | none => none

/-- The alternation of `extract_video_id`, tried left to right. -/
def tryAlts (w : Char → Bool) (l : List Char) : Option (List Char) :=
  match tryAlt w watchLit l with
  | some v => some v
  | none =>
    match tryAlt w shortLit l with
    | some v => some v
    | none => tryAlt w embedLit l

/-- `re.search`: leftmost position where the alternation matches. -/
def reSearchExtract (w : Char → Bool) : List Char → Option (List Char)
  | [] => none
  | c :: rest =>
    match tryAlts w (c :: rest) with
    | some v => some v
    | none => reSearchExtract w rest

/-- `extract_video_id`: search the single pattern, returning group 1 of the
first match, or `None`. -/
def extract_video_id (w : Char → Bool) (url : List Char) : Option (List Char) :=
  reSearchExtract w url

/-! ## Summarization providers (`src/app/services/summarization_service.py`)

`summarize_with_perplexity` and `summarize_with_gemini` each contain a
verbatim copy of the same `prompts` dict and the same `max_tokens_map`;
the selected prompt and token budget are pure functions of the
`summary_type` argument, modelled here.  (Both functions in fact fail
before reaching any HTTP call: they read `Config.PERPLEXITY_API_KEY` /
`Config.GOOGLE_API_KEY`, class attributes that do not exist on the
`Config` dataclass, and their blanket `except` turns the resulting
`AttributeError` into a `None` return; the selection logic below is the
part the claim about summary kinds is about.) -/

/-- The `concise` prompt literal of the `prompts` dict. -/
def promptConcise : String :=
  "Jesteś ekspertem od syntezy informacji. Przeanalizuj poniższy transkrypt wideo YouTube. Stwórz **bardzo krótkie podsumowanie** (3-5 zdań). Skup się wyłącznie na **głównym wniosku** i najważniejszych faktach. Pomiń wstęp i zakończenie. Użyj **pogrubienia** dla kluczowych terminów."

/-- The `normal` prompt literal of the `prompts` dict. -/
def promptNormal : String :=
  "Jesteś profesjonalnym asystentem. Przeanalizuj transkrypt wideo. Stwórz przejrzyste podsumowanie (ok. 300-500 słów) w języku polskim. Struktura: 1. **Główny temat:** O czym jest wideo? (1-2 zdania). 2. **Kluczowe punkty:** Lista punktowana (użyj myślników `-`). Każdy punkt powinien zawierać konkretną informację, a nie ogólnik. 3. **Wnioski / Actionable Advice:** Co z tego wynika dla widza? **Formatowanie:** Używaj **pogrubień** dla ważnych pojęć. Pisz stylem edukacyjnym i bezpośrednim."

/-- The `detailed` prompt literal of the `prompts` dict. -/
def promptDetailed : String :=
  "Działasz jako zaawansowany analityk treści edukacyjnych. Przeanalizuj CAŁY dostarczony transkrypt wideo i przygotuj **kompleksowe opracowanie** (1500-2500 słów) w języku polskim. **Wymagana struktura:** ### 1. Wprowadzenie (Kontekst wideo i definicja problemu). ### 2. Szczegółowa Analiza (podzielona na sekcje tematyczne). Nie streszczaj chronologicznie, ale **tematycznie**. Wyodrębnij główne wątki jako nagłówki. Dla każdego wątku opisz szczegóły, dane, przykłady i argumenty autora. Używaj **pogrubień** dla terminologii. ### 3. Cytaty i Kluczowe Myśli (Przytocz lub sparafrazuj najważniejsze stwierdzenia). ### 4. Podsumowanie i Wnioski Praktyczne (Synteza wiedzy, lista kroków/lekcji). **Styl:** Profesjonalny, akademicki lub ekspercki. Używaj poprawnego formatowania Markdown (nagłówki, listy, pogrubienia). Twoim celem jest to, aby użytkownik nie musiał oglądać wideo po przeczytaniu tej notatki."

/-- `prompts.get(summary_type, prompts["normal"])`, shared verbatim by both
provider functions. -/
def promptsGet (summary_type : String) : String :=
  if summary_type = "concise" then promptConcise
  else if summary_type = "normal" then promptNormal
  else if summary_type = "detailed" then promptDetailed
  else promptNormal

/-- `max_tokens_map.get(summary_type, 3000)`, shared verbatim by both
provider functions. -/
def maxTokensGet (summary_type : String) : ℕ :=
  if summary_type = "concise" then 1000
  else if summary_type = "normal" then 3000
  else if summary_type = "detailed" then 8000
  else 3000

/-- Prompt template sent by `summarize_with_perplexity`. -/
def perplexityPromptFor (summary_type : String) : String :=
  promptsGet summary_type

/-- `max_tokens` sent by `summarize_with_perplexity`. -/
def perplexityMaxTokens (summary_type : String) : ℕ :=
  maxTokensGet summary_type

/-- Prompt template sent by `summarize_with_gemini`. -/
def geminiPromptFor (summary_type : String) : String :=
  promptsGet summary_type

/-- `maxOutputTokens` sent by `summarize_with_gemini`. -/
def geminiMaxTokens (summary_type : String) : ℕ :=
  maxTokensGet summary_type

/-! ## Name resolution facts used by `routes._generate_summary` and the
duration guard (`src/app/config.py`, `src/app/routes.py`,
`src/app/services/youtube_service.py`)

`app/config.py` defines the dataclass `Config` with instance fields
`perplexity_api_key`, `google_api_key`, `api_timeout`, `youtube_timeout`,
`max_text_length`, `debug` (all via `field(default_factory=...)`, so none
remains as a class attribute) and the class-level names `__post_init__`,
`_validate_api_keys`, `_validate_timeouts`, `_validate_limits`,
`use_perplexity`, `ai_provider`, `get_api_key`, `to_dict`.  A module-level
singleton instance `config = Config()` is created at import time. -/

/-- The value of the `max_video_duration` attribute on the `config`
singleton: no such field or property exists anywhere in `app/config.py`
(nor is the attribute ever assigned), so the lookup at
`youtube_service.py:207` fails with `AttributeError`, modelled by `none`. -/
def configMaxVideoDuration : Option ℕ := none

/-- The value of the class attribute `Config.USE_PERPLEXITY` read at
`routes.py:307`: the class body defines no upper-case names, so the lookup
raises `AttributeError`, modelled by `none`. -/
def configClassUsePerplexity : Option Bool := none

/-- The value of the class attribute `Config.GOOGLE_API_KEY` read at
`routes.py:311`: absent from the class body, modelled by `none`. -/
def configClassGoogleApiKey : Option String := none

/-- The module-level names bound in `app/routes.py` (its imports plus the
blueprint and the functions defined in the module).  `Config` is not
among them: routes.py imports only the lower-case singleton, through
`from app.config import config`. -/
def routesTopLevelNames : List String :=
  ["time", "os", "subprocess", "BytesIO", "datetime", "Blueprint",
   "request", "send_file", "config", "logger", "success_response",
   "error_response", "validation_error_response", "ValidationError",
   "TranscriptError", "SummarizationError", "validate_youtube_url",
   "validate_transcript_file", "validate_summary_type",
   "validate_output_format", "get_transcript", "extract_video_id",
   "get_video_title", "get_diarized_transcript",
   "summarize_with_perplexity", "summarize_with_gemini",
   "create_pdf_summary", "create_hybrid_pdf", "parse_transcript_file",
   "ERROR_NO_URL", "ERROR_NO_FILE", "ERROR_NO_URL_OR_FILE",
   "ERROR_TRANSCRIPT_FAILED", "ERROR_SUMMARIZATION_FAILED",
   "SUCCESS_TRANSCRIPT_READY", "DEBUG_ENDPOINT_TIMEOUT",
   "COOKIES_FILENAME", "bp"]

/-- The message `ERROR_SUMMARIZATION_FAILED` from `src/app/constants.py`. -/
def ERROR_SUMMARIZATION_FAILED : String := "Failed to generate summary"

/-- Oracle outcomes of the two provider functions as seen by
`_generate_summary`; each returns a summary string or `None` (both catch
every exception internally). -/
structure SummEnv where
  perplexity : Option String
  gemini : Option String
deriving Repr

/-- Observable outcome of `_generate_summary` (`src/app/routes.py`,
lines 301-323): the returned `(summary, error)` pair or the exception it
raises, plus how many times each provider function was invoked. -/
structure SummOut where
  result : Except PyExc (Option String × Option String)
  perplexityCalls : ℕ
  geminiCalls : ℕ
deriving Repr

/-- `_generate_summary(transcript, summary_type)`.  The first statement
that inspects a provider is `if Config.USE_PERPLEXITY:`; the name
`Config` must resolve in the module namespace before its attribute is
read, and each step that fails raises out of the function (there is no
try/except inside `_generate_summary`). The remaining branches translate
the source fallback logic. -/
def generateSummary (env : SummEnv) : SummOut :=
  if routesTopLevelNames.contains ("Config") then
    match configClassUsePerplexity with
    | none => ⟨.error .attributeError, 0, 0⟩
    | some usePerplexity =>
      if usePerplexity then
        match env.perplexity with
        | some s => ⟨.ok (some s, none), 1, 0⟩
        | none =>
          match configClassGoogleApiKey with
          | none => ⟨.error .attributeError, 1, 0⟩
          | some key =>
            if key ≠ "" then
              match env.gemini with
              | some s => ⟨.ok (some s, none), 1, 1⟩
              | none => ⟨.ok (none, some ERROR_SUMMARIZATION_FAILED), 1, 1⟩
            else ⟨.ok (none, some ERROR_SUMMARIZATION_FAILED), 1, 0⟩
      else
        match env.gemini with
        | some s => ⟨.ok (some s, none), 0, 1⟩
        | none => ⟨.ok (none, some ERROR_SUMMARIZATION_FAILED), 0, 1⟩
  else ⟨.error .nameError, 0, 0⟩

/-- Python `str(e)` used when an exception is rendered into a returned
error message.  Only the `other` payload matters to any claim; fixed
renderings are chosen for the named exception kinds. -/
def pyStr (e : PyExc) : String :=
  match e with
  | .attributeError => "attribute error"
  | .unboundLocalError => "unbound local error"
  | .nameError => "name error"
  | .validationError => "validation error"
  | .audioDownloadError => "audio download error"
  | .other m => m

/-! ## Audio download (`src/app/services/youtube_service.py`,
`download_audio_from_youtube`, lines 176-269)

The function first validates the duration inside
`try: ... except ValidationError: raise except Exception: continue`.
Inside the `try`, `config.max_video_duration` is read; the name
`ValidationError` is a local of the function, bound only by the
`from app.exceptions import ValidationError` that sits inside the
over-limit branch.  When any exception reaches the handlers without that
branch having run, CPython evaluates the first handler expression
`except ValidationError:`, reads the unbound local, and raises
`UnboundLocalError` in its place. -/

/-- The duration-validation `try` body: metadata fetch, then the
comparison `duration > config.max_video_duration`.  Returns the outcome
together with whether the local name `ValidationError` was bound by the
over-limit branch having executed its import statement. -/
def durationGuardBody (meta : Except PyExc ℕ) : Except PyExc Unit × Bool :=
  match meta with
  | .error e => (.error e, false)
  | .ok d =>
    match configMaxVideoDuration with
    | none => (.error .attributeError, false)
    | some m => if d > m then (.error .validationError, true) else (.ok (), false)

/-- The duration-validation statement with its handlers: a raised
exception meets `except ValidationError:` first; if the local is bound
the `ValidationError` is re-raised, otherwise evaluating the handler
expression itself raises `UnboundLocalError`. -/
def durationGuard (meta : Except PyExc ℕ) : Except PyExc Unit :=
  match durationGuardBody meta with
  | (.ok _, _) => .ok ()
  | (.error e, true) => .error e
  | (.error _, false) => .error .unboundLocalError

/-- Local file system state: the set of paths present, plus the counter
feeding `tempfile.mkstemp` fresh-name generation. -/
structure FS where
  files : List String
  counter : ℕ
deriving Repr, DecidableEq

/-- The `yt_audio_<k>` base of the `k`-th `mkstemp(suffix=.m4a,
prefix=yt_audio_)` name. -/
def tmpBase (k : ℕ) : String :=
  "yt_audio_" ++ String.mk (natDigits k)

/-- The path the `k`-th `mkstemp` call creates. -/
def tmpM4a (k : ℕ) : String :=
  tmpBase k ++ ".m4a"

/-- The candidate converted path `audio_path.replace(".m4a", ".mp3")`. -/
def tmpMp3 (k : ℕ) : String :=
  tmpBase k ++ ".mp3"

/-- Oracle outcome of one `ydl.download([video_url])` call: it raised, or
it returned with the post-processed `.mp3` present or absent.  (External
side effects of yt-dlp on its own intermediate files on the success path
are not modelled; every claim about files concerns the failure paths.) -/
inductive DlAttempt where
  | raises (e : PyExc)
  | completes (mp3Produced : Bool)
deriving Repr

/-- Environment of `download_audio_from_youtube`: the metadata fetch
outcome (`extract_info` giving `info.get("duration", 0)`, or raising) and
the outcome of the `k`-th download attempt. -/
structure DlEnv where
  meta : Except PyExc ℕ
  attempt : ℕ → DlAttempt

/-- One `_download` body: `mkstemp` creates the `.m4a` file (nothing ever
deletes it in this function), yt-dlp runs, then
`os.path.exists(mp3_path)` decides between returning the path and raising
`AudioDownloadError`. -/
def downloadOnce (out : DlAttempt) (fs : FS) : Except PyExc String × FS :=
  let k := fs.counter
  let fs1 : FS := ⟨tmpM4a k :: fs.files, k + 1⟩
  match out with
  | .raises e => (.error e, fs1)
  | .completes mp3Produced =>
    if mp3Produced then (.ok (tmpMp3 k), ⟨tmpMp3 k :: fs1.files, fs1.counter⟩)
    else (.error .audioDownloadError, fs1)

/-- `MAX_DOWNLOAD_ATTEMPTS` from `src/app/constants.py`. -/
def MAX_DOWNLOAD_ATTEMPTS : ℕ := 3

/-- The `@retry(max_attempts=MAX_DOWNLOAD_ATTEMPTS, delay=..., backoff=1.0)`
loop around `_download`, with the default allow-list `(Exception,)` that
catches everything; `fuel` counts the attempts still allowed after the
current one, `k` is the attempt number. -/
def retryDownloadGo (env : DlEnv) : ℕ → ℕ → FS → Except PyExc String × FS
  | fuel, k, fs =>
    match downloadOnce (env.attempt k) fs with
    | (.ok p, fs2) => (.ok p, fs2)
    | (.error e, fs2) =>
      match fuel with
      | 0 => (.error e, fs2)
      | fuel + 1 => retryDownloadGo env fuel (k + 1) fs2

/-- Lines 224-269: the retried `_download` plus the EAFP wrapper
`except AudioDownloadError: raise / except Exception: raise
AudioDownloadError(...)`. -/
def downloadAttemptPhase (env : DlEnv) (fs : FS) : Except PyExc String × FS :=
  match retryDownloadGo env (MAX_DOWNLOAD_ATTEMPTS - 1) 1 fs with
  | (.ok p, fs2) => (.ok p, fs2)
  | (.error .audioDownloadError, fs2) => (.error .audioDownloadError, fs2)
  | (.error _, fs2) => (.error .audioDownloadError, fs2)

/-- `download_audio_from_youtube`: duration guard first, then the retried
download.  The guard result decides whether the attempt phase runs. -/
def download_audio_from_youtube (env : DlEnv) (fs : FS) : Except PyExc String × FS :=
  match durationGuard env.meta with
  | .error e => (.error e, fs)
  | .ok _ => downloadAttemptPhase env fs

/-! ## Gemini diarized transcription
(`src/app/services/gemini_audio_service.py`, `transcribe_with_gemini`) -/

/-- Terminal `audio_file.state.name` once the poll loop exits. -/
inductive GeminiFileState where
  | ready
  | failed
deriving Repr, DecidableEq

/-- Environment of one `transcribe_with_gemini` call: the configured API
key, the upload outcome, the poll-loop outcome, the generation outcome
(`getattr(response, "text", None)`), the rendered finish reason used in
the no-text message, and whether the `files.delete` call succeeds. -/
structure GeminiEnv where
  apiKey : String
  upload : Except PyExc Unit
  finalState : Except PyExc GeminiFileState
  generate : Except PyExc (Option String)
  finishReason : String
  deleteOk : Bool

/-- Whether an upload outcome is success (the remote blob was created). -/
def exceptOk (u : Except PyExc Unit) : Bool :=
  match u with
  | .ok _ => true
  | .error _ => false

/-- Observable outcome of `transcribe_with_gemini`: the returned
`(transcript, source-or-error)` pair (the function never raises: the
outer `except Exception` turns any escape into `(None, str(e))`), whether
the uploaded blob still exists remotely after the return, and whether the
`finally` block attempted the delete. -/
structure GeminiOut where
  result : Option String × String
  remoteExists : Bool
  deleteAttempted : Bool
deriving Repr, DecidableEq

/-- `transcribe_with_gemini`.  After a successful upload the blob exists;
every path out of the inner `try` passes through the `finally`, which
attempts the delete and logs (but swallows) its failure, so afterwards
the blob exists exactly when the delete call failed. -/
def transcribe_with_gemini (env : GeminiEnv) : GeminiOut :=
  if env.apiKey = "" then ⟨(none, "Missing API Key"), false, false⟩
  else
    match env.upload with
    | .error e => ⟨(none, pyStr e), false, false⟩
    | .ok _ =>
      let remains := !env.deleteOk
      match env.finalState with
      | .error e => ⟨(none, pyStr e), remains, true⟩
      | .ok .failed => ⟨(none, "Gemini processing failed"), remains, true⟩
      | .ok .ready =>
        match env.generate with
        | .error e => ⟨(none, pyStr e), remains, true⟩
        | .ok none =>
          ⟨(none, "Gemini returned no text (Reason: " ++ env.finishReason ++ ")"), remains, true⟩
        | .ok (some t) =>
          if t = "" then
            ⟨(none, "Gemini returned no text (Reason: " ++ env.finishReason ++ ")"), remains, true⟩
          else ⟨(some t, "gemini"), remains, true⟩

/-! ## Transcript acquisition (`src/app/services/youtube_service.py`,
`get_youtube_transcript` and `get_transcript`) -/

/-- Environment of one `get_transcript` call: the caption lookup outcome
(`some items` when the transcript API returned timestamped items, `none`
when anything in the caption `try` raised, e.g. no track exists), the
`download_audio_from_youtube` outcome, and the `transcribe_with_whisper`
outcome (that function catches all exceptions and returns `None`). -/
structure GTEnv where
  captionItems : Option (List (ℚ × List Char))
  download : Except PyExc (Option String)
  whisper : Option String

/-- Observable outcome of `get_transcript`: the returned pair or the
exception it lets escape, and whether the audio downloader was invoked. -/
structure GTOut where
  result : Except PyExc (Option String × String)
  downloadCalled : Bool
deriving Repr

/-- `get_youtube_transcript`: on success, the items formatted with
timestamps joined by newlines paired with source `youtube`; on any
exception, `(None, None)`. -/
def get_youtube_transcript (items : Option (List (ℚ × List Char))) : Option (String × String) :=
  match items with
  | none => none
  | some its => some (formatCaptionLines its, "youtube")

/-- The Whisper fallback half of `get_transcript` (download, transcribe,
truthiness checks).  The download sits outside any `try`, so a raised
exception escapes `get_transcript`. -/
def whisperFallback (env : GTEnv) : GTOut :=
  match env.download with
  | .error e => ⟨.error e, true⟩
  | .ok none => ⟨.ok (none, "Failed to download audio"), true⟩
  | .ok (some _) =>
    match env.whisper with
    | some t =>
      if t ≠ "" then ⟨.ok (some t, "whisper"), true⟩
      else ⟨.ok (none, "Failed to transcribe audio (Empty)"), true⟩
    | none => ⟨.ok (none, "Failed to transcribe audio (Empty)"), true⟩

/-- `get_transcript`: extract the video id (failure returns the invalid
URL error without any network call), try the caption source, and fall
back to download plus Whisper only when the caption text is falsy. -/
def get_transcript (w : Char → Bool) (env : GTEnv) (url : List Char) : GTOut :=
  match extract_video_id w url with
  | none => ⟨.ok (none, ERROR_INVALID_URL), false⟩
  | some _ =>
    match get_youtube_transcript env.captionItems with
    | some (t, src) =>
      if t ≠ "" then ⟨.ok (some t, src), false⟩ else whisperFallback env
    | none => whisperFallback env

/-! # Theorems -/

/-- C2: the claim says a video whose reported duration exceeds the
configured ceiling fails with `ValidationError` before any download, and
a video within the ceiling passes the guard.  In the code the guard is
broken: `config.max_video_duration` does not exist, the resulting
`AttributeError` reaches the handlers, and evaluating the handler
expression `except ValidationError:` reads an unbound local — so for
EVERY reported duration `d` the call raises `UnboundLocalError`, never
`ValidationError`, and the download attempt phase (and with it the
extraction call) never runs: the file system is returned untouched. -/
theorem c2_duration_guard_raises_unbound_local
    (attempt : ℕ → DlAttempt) (fs : FS) (d : ℕ) :
    download_audio_from_youtube ⟨.ok d, attempt⟩ fs = (.error .unboundLocalError, fs) := rfl

/-- C3: the claim describes primary-then-secondary provider fallback in
`_generate_summary`.  In the code the very first provider check
`if Config.USE_PERPLEXITY:` reads the name `Config`, which is not bound
in the routes module namespace (only the lower-case `config` instance is
imported), so the function raises `NameError` before either provider is
invoked, for every transcript and summary kind. -/
theorem c3_generate_summary_raises_name_error (env : SummEnv) :
    generateSummary env = ⟨.error .nameError, 0, 0⟩ := rfl

/-- C4: with `limit = 3`, `window = 60`, three calls within 60 seconds of
the first are all admitted, the fourth call inside the window is rejected
without recording its timestamp (the stored deque is unchanged), and a
call made more than 60 seconds after the first call is admitted again. -/
theorem c4_rate_limiter_sliding_window (t1 t2 t3 t4 t5 : ℚ)
    (h12 : t1 ≤ t2) (h23 : t2 ≤ t3) (h34 : t3 ≤ t4)
    (hin : t4 ≤ t1 + 60) (hout : t1 + 60 < t5) :
    isAllowed [] t1 3 60 = (true, [t1])
    ∧ isAllowed [t1] t2 3 60 = (true, [t1, t2])
    ∧ isAllowed [t1, t2] t3 3 60 = (true, [t1, t2, t3])
    ∧ isAllowed [t1, t2, t3] t4 3 60 = (false, [t1, t2, t3])
    ∧ (isAllowed [t1, t2, t3] t5 3 60).1 = true := by
  have hd2 : decide (t1 < t2 - 60) = false := by
    simp only [decide_eq_false_iff_not, not_lt]
    linarith
  have hd3 : decide (t1 < t3 - 60) = false := by
    simp only [decide_eq_false_iff_not, not_lt]
    linarith
  have hd4 : decide (t1 < t4 - 60) = false := by
    simp only [decide_eq_false_iff_not, not_lt]
    linarith
  have hd5 : decide (t1 < t5 - 60) = true := by
    simp only [decide_eq_true_eq]
    linarith
  refine ⟨?_, ?_, ?_, ?_, ?_⟩
  · simp [isAllowed]
  · simp [isAllowed, List.dropWhile_cons, hd2]
  · simp [isAllowed, List.dropWhile_cons, hd2, hd3]
  · simp [isAllowed, List.dropWhile_cons, hd4]
  · have hdw : List.dropWhile (fun t => decide (t < t5 - 60)) [t1, t2, t3]
        = List.dropWhile (fun t => decide (t < t5 - 60)) [t2, t3] := by
      rw [List.dropWhile_cons]
      simp [hd5]
    have hlen : (List.dropWhile (fun t => decide (t < t5 - 60)) [t2, t3]).length ≤ 2 := by
      simpa using (List.dropWhile_sublist (l := [t2, t3])
        (fun t => decide (t < t5 - 60))).length_le
    simp only [isAllowed, hdw]
    rw [if_neg (by omega)]

/-- C7: a summary kind outside `{concise, normal, detailed}` selects, in
both provider functions, exactly the prompt template and token budget
selected for kind `normal`. -/
theorem c7_unknown_kind_behaves_as_normal (k : String)
    (hc : k ≠ "concise") (hn : k ≠ "normal") (hd : k ≠ "detailed") :
    perplexityPromptFor k = perplexityPromptFor ("normal")
    ∧ perplexityMaxTokens k = perplexityMaxTokens ("normal")
    ∧ geminiPromptFor k = geminiPromptFor ("normal")
    ∧ geminiMaxTokens k = geminiMaxTokens ("normal") := by
  have hpk : promptsGet k = promptNormal := by
    unfold promptsGet
    rw [if_neg hc, if_neg hn, if_neg hd]
  have htk : maxTokensGet k = 3000 := by
    unfold maxTokensGet
    rw [if_neg hc, if_neg hn, if_neg hd]
  have hpn : promptsGet ("normal") = promptNormal := rfl
  have htn : maxTokensGet ("normal") = 3000 := rfl
  exact ⟨by rw [perplexityPromptFor, perplexityPromptFor, hpk, hpn],
         by rw [perplexityMaxTokens, perplexityMaxTokens, htk, htn],
         by rw [geminiPromptFor, geminiPromptFor, hpk, hpn],
         by rw [geminiMaxTokens, geminiMaxTokens, htk, htn]⟩

/-- C7 witness: the unknown kind `brief` is treated as `normal` by both
providers. -/
theorem c7_witness :
    perplexityPromptFor ("brief") = perplexityPromptFor ("normal")
    ∧ perplexityMaxTokens ("brief") = perplexityMaxTokens ("normal")
    ∧ geminiPromptFor ("brief") = geminiPromptFor ("normal")
    ∧ geminiMaxTokens ("brief") = geminiMaxTokens ("normal") :=
  c7_unknown_kind_behaves_as_normal ("brief") (by decide) (by decide) (by decide)

/-- C1 counterexample: a run of `transcribe_with_gemini` in which the
upload, processing and generation all succeed but the `files.delete`
call fails returns a successful transcript while the uploaded remote
blob still exists after the call — contradicting the claim that the
underlying resource is gone on every exit path. -/
theorem c1_counterexample_remote_blob_survives :
    (transcribe_with_gemini ⟨"key", .ok (), .ok .ready, .ok (some ("hello")), "STOP", false⟩).result
        = (some ("hello"), "gemini")
    ∧ (transcribe_with_gemini
        ⟨"key", .ok (), .ok .ready, .ok (some ("hello")), "STOP", false⟩).remoteExists = true :=
  ⟨rfl, rfl⟩

/-- C1 amended: `download_audio_from_youtube` always raises during its
duration guard and leaves the file system untouched, so it never creates
(nor therefore leaks) any file; `transcribe_with_gemini` attempts the
remote delete exactly when the upload succeeded, and the remote blob
survives the call exactly when the upload succeeded and the delete call
itself failed — in particular, whenever the delete succeeds the resource
is gone on every exit path. -/
theorem c1_amended_resource_lifecycle :
    (∀ (env : DlEnv) (fs : FS),
      (∃ e, (download_audio_from_youtube env fs).1 = .error e)
      ∧ (download_audio_from_youtube env fs).2 = fs)
    ∧ (∀ genv : GeminiEnv,
      (transcribe_with_gemini genv).deleteAttempted
          = (decide (genv.apiKey ≠ "") && exceptOk genv.upload)
      ∧ (transcribe_with_gemini genv).remoteExists
          = (decide (genv.apiKey ≠ "") && exceptOk genv.upload && !genv.deleteOk)) := by
  constructor
  · intro env fs
    rcases env with ⟨meta, attempt⟩
    cases meta with
    | ok d => exact ⟨⟨.unboundLocalError, rfl⟩, rfl⟩
    | error e => exact ⟨⟨.unboundLocalError, rfl⟩, rfl⟩
  · intro genv
    rcases genv with ⟨key, up, st, gen, fr, del⟩
    by_cases hk : key = ""
    · subst hk
      simp [transcribe_with_gemini, exceptOk]
    · cases up with
      | error e => simp [transcribe_with_gemini, hk, exceptOk]
      | ok u =>
        cases st with
        | error e => simp [transcribe_with_gemini, hk, exceptOk]
        | ok s =>
          cases s with
          | failed => simp [transcribe_with_gemini, hk, exceptOk]
          | ready =>
            cases gen with
            | error e => simp [transcribe_with_gemini, hk, exceptOk]
            | ok t =>
              cases t with
              | none => simp [transcribe_with_gemini, hk, exceptOk]
              | some t =>
                by_cases ht : t = ""
                · simp [transcribe_with_gemini, hk, ht, exceptOk]
                · simp [transcribe_with_gemini, hk, ht, exceptOk]

/-- C5 counterexample: a video with an available caption track whose only
line is whitespace.  The formatted caption text is empty, so
`get_transcript` does not return the caption source: it invokes the audio
downloader and (here) returns the Whisper result. -/
theorem c5_counterexample_whitespace_captions :
    (get_transcript (fun c => c.isAlphanum || c = '_')
        ⟨some [(0, [ ' ' ])], .ok (some ("audio.mp3")), some ("hi")⟩
        ("https://www.youtube.com/watch?v=abc12345678".toList)).downloadCalled = true
    ∧ (get_transcript (fun c => c.isAlphanum || c = '_')
        ⟨some [(0, [ ' ' ])], .ok (some ("audio.mp3")), some ("hi")⟩
        ("https://www.youtube.com/watch?v=abc12345678".toList)).result
        = .ok (some ("hi"), "whisper") :=
  ⟨rfl, rfl⟩

/-- Every character produced by the digit renderer is a decimal digit;
in particular it is never a colon. -/
theorem digitChar_ne_colon (d : ℕ) : digitChar d ≠ ':' := by
  unfold digitChar
  have h : d % 10 < 10 := Nat.mod_lt _ (by omega)
  revert h
  generalize d % 10 = r
  intro h
  interval_cases r <;> decide

/-- No colon among the characters of `natDigitsAux`. -/
theorem mem_natDigitsAux_ne_colon :
    ∀ (fuel n : ℕ) (c : Char), c ∈ natDigitsAux fuel n → c ≠ ':' := by
  intro fuel
  induction fuel with
  | zero => intro n c hc; simp [natDigitsAux] at hc
  | succ f ih =>
    intro n c hc
    rw [natDigitsAux] at hc
    by_cases hn : n < 10
    · rw [if_pos hn] at hc
      simp at hc
      subst hc
      exact digitChar_ne_colon n
    · rw [if_neg hn] at hc
      rcases List.mem_append.mp hc with h | h
      · exact ih _ _ h
      · simp at h
        subst h
        exact digitChar_ne_colon (n % 10)

/-- No colon among the characters of `pyFormat02d`. -/
theorem mem_pyFormat02d_ne_colon (i : ℤ) (c : Char) (hc : c ∈ pyFormat02d i) :
    c ≠ ':' := by
  unfold pyFormat02d intRender natDigits at hc
  split at hc
  · rcases List.mem_cons.mp hc with h | h
    · subst h; decide
    · exact mem_natDigitsAux_ne_colon _ _ _ h
  · split at hc
    · rcases List.mem_cons.mp hc with h | h
      · subst h; decide
      · exact mem_natDigitsAux_ne_colon _ _ _ h
    · exact mem_natDigitsAux_ne_colon _ _ _ hc

/-- The colon count of `pyFormat02d` is zero. -/
theorem count_colon_pyFormat02d (i : ℤ) : (pyFormat02d i).count ':' = 0 :=
  List.count_eq_zero.mpr (fun hmem => mem_pyFormat02d_ne_colon i ':' hmem rfl)

/-- For a nonnegative offset, the hour segment of `format_seconds` is
rendered exactly when the offset reaches one hour: two colon separators
at or above 3600 seconds, one below. -/
theorem formatSecondsL_colon_count (s : ℚ) (hs : 0 ≤ s) :
    (3600 ≤ s → (formatSecondsL s).count ':' = 2)
    ∧ (s < 3600 → (formatSecondsL s).count ':' = 1) := by
  have hnum : ¬(s.num < 0) := by
    have := Rat.num_nonneg.mpr hs
    omega
  have hpy : pyInt s = ((s.num.toNat / s.den : ℕ) : ℤ) := by
    unfold pyInt
    rw [if_neg hnum]
  have hden : 0 < s.den := s.pos
  have hiff : 0 < Int.ediv (pyInt s) 3600 ↔ 3600 ≤ s := by
    rw [hpy]
    have hediv : Int.ediv ((s.num.toNat / s.den : ℕ) : ℤ) 3600
        = ((s.num.toNat / s.den / 3600 : ℕ) : ℤ) := rfl
    rw [hediv]
    have h1 : ((0:ℤ) < ((s.num.toNat / s.den / 3600 : ℕ) : ℤ))
        ↔ 0 < s.num.toNat / s.den / 3600 := Int.natCast_pos
    have h2 : 0 < s.num.toNat / s.den / 3600 ↔ 3600 ≤ s.num.toNat / s.den := by
      constructor
      · intro h
        by_contra hlt
        push_neg at hlt
        rw [Nat.div_eq_of_lt hlt] at h
        omega
      · intro h
        exact Nat.div_pos h (by omega)
    have h3 : 3600 ≤ s.num.toNat / s.den ↔ 3600 * s.den ≤ s.num.toNat :=
      Nat.le_div_iff_mul_le hden
    have h4 : 3600 * s.den ≤ s.num.toNat ↔ ((3600 * s.den : ℕ) : ℤ) ≤ s.num := by
      rw [Int.le_toNat (by omega)]
    have h5 : (((3600 * s.den : ℕ) : ℤ) ≤ s.num) ↔ (3600:ℚ) ≤ s := by
      rw [Rat.le_def]
      simp only [Rat.num_ofNat, Rat.den_ofNat, Nat.cast_one, mul_one]
      push_cast
      omega
    exact h1.trans (h2.trans (h3.trans (h4.trans h5)))
  constructor
  · intro hbr
    simp only [formatSecondsL]
    rw [if_pos (hiff.mpr hbr)]
    simp [List.count_cons, List.count_append, count_colon_pyFormat02d]
  · intro hbr
    simp only [formatSecondsL]
    rw [if_neg (fun hh => absurd (hiff.mp hh) (not_le.mpr hbr))]
    simp [List.count_cons, List.count_append, count_colon_pyFormat02d]

/-- C8: transcript lines carry a leading timestamp whose hours segment
appears exactly at and past the one-hour boundary: the two claimed
caption lines render exactly as `[00:00] Hello\n[00:05] world`, the
claimed Whisper segment at 3661.0 s renders exactly as
`[01:01:01] test`, and in general a nonnegative offset yields two colon
separators (an hours segment) iff it is at least 3600 seconds, one
otherwise. -/
theorem c8_timestamp_rendering :
    formatCaptionLines [(0, "Hello".toList), (Rat.divInt 26 5, "world".toList)]
        = "[00:00] Hello\n[00:05] world"
    ∧ formatWhisperSegments [(3661, "test".toList)] = "[01:01:01] test"
    ∧ ∀ s : ℚ, 0 ≤ s →
        ((3600 ≤ s → (formatSecondsL s).count ':' = 2)
         ∧ (s < 3600 → (formatSecondsL s).count ':' = 1)) :=
  ⟨by decide, by decide, fun s hs => formatSecondsL_colon_count s hs⟩

/-- C8 witness: the general colon-count part applied at the concrete
offsets 3661 and 59. -/
theorem c8_witness :
    (formatSecondsL 3661).count ':' = 2 ∧ (formatSecondsL 59).count ':' = 1 :=
  ⟨(c8_timestamp_rendering.2.2 3661 (by decide)).1 (by decide),
   (c8_timestamp_rendering.2.2 59 (by decide)).2 (by decide)⟩

/-- Joining never yields the empty line list when there is a line and no
line is empty. -/
theorem joinNewline_ne_nil :
    ∀ (ls : List (List Char)), ls ≠ [] → (∀ x ∈ ls, x ≠ []) → joinNewline ls ≠ [] := by
  intro ls
  match ls with
  | [] => intro h _; exact absurd rfl h
  | [x] =>
    intro _ hall
    simpa [joinNewline] using hall x (by simp)
  | x :: y :: rest =>
    intro _ _
    simp [joinNewline]

/-- A caption item with non-whitespace text forces a nonempty formatted
transcript. -/
theorem formatCaptionLines_ne_empty (items : List (ℚ × List Char))
    (hne : ∃ it ∈ items, pyStripList it.2 ≠ []) :
    formatCaptionLines items ≠ "" := by
  obtain ⟨it, hmem, hit⟩ := hne
  have hfil : items.filter (fun x => decide (pyStripList x.2 ≠ [])) ≠ [] := by
    intro hnil
    have := List.filter_eq_nil_iff.mp hnil it hmem
    simp [hit] at this
  have hmap : ((items.filter (fun x => decide (pyStripList x.2 ≠ []))).map
      (fun x => formatSecondsL x.1 ++ ' ' :: x.2)) ≠ [] := by
    simpa using hfil
  have hall : ∀ x ∈ ((items.filter (fun x => decide (pyStripList x.2 ≠ []))).map
      (fun x => formatSecondsL x.1 ++ ' ' :: x.2)), x ≠ [] := by
    intro x hx
    obtain ⟨y, _, hy⟩ := List.mem_map.mp hx
    subst hy
    simp
  have hjoin := joinNewline_ne_nil _ hmap hall
  unfold formatCaptionLines
  intro hcontra
  exact hjoin (congrArg String.data hcontra)

/-- C4 witness: calls at 0, 10, 20, 30 and 61 seconds. -/
theorem c4_witness :
    isAllowed [] 0 3 60 = (true, [0])
    ∧ isAllowed [0] 10 3 60 = (true, [0, 10])
    ∧ isAllowed [0, 10] 20 3 60 = (true, [0, 10, 20])
    ∧ isAllowed [0, 10, 20] 30 3 60 = (false, [0, 10, 20])
    ∧ (isAllowed [0, 10, 20] 61 3 60).1 = true :=
  c4_rate_limiter_sliding_window 0 10 20 30 61
    (by norm_num) (by norm_num) (by norm_num) (by norm_num) (by norm_num)

/-- C5 amended: for a video with extractable id whose caption lookup
succeeds with at least one non-whitespace line, and diarization not
requested, `get_transcript` returns the formatted caption text with
source `youtube` and the audio downloader is never invoked. -/
theorem c5_amended_captions_short_circuit (w : Char → Bool) (env : GTEnv)
    (url : List Char) (items : List (ℚ × List Char))
    (hci : env.captionItems = some items)
    (hne : ∃ it ∈ items, pyStripList it.2 ≠ [])
    (hid : (extract_video_id w url).isSome = true) :
    (get_transcript w env url).downloadCalled = false
    ∧ (get_transcript w env url).result
        = .ok (some (formatCaptionLines items), "youtube") := by
  have hfmt : formatCaptionLines items ≠ "" := formatCaptionLines_ne_empty items hne
  rcases env with ⟨ci, dl, wh⟩
  simp only at hci
  subst hci
  cases hx : extract_video_id w url with
  | none => rw [hx] at hid; simp at hid
  | some v =>
    constructor <;> simp [get_transcript, hx, get_youtube_transcript, hfmt]

/-- C5 witness: a caption track with the single line `Hello` at offset 0
short-circuits acquisition with source `youtube` and no download. -/
theorem c5_witness :
    (get_transcript (fun c => c.isAlphanum || c = '_')
        ⟨some [(0, "Hello".toList)], .ok none, none⟩
        ("https://www.youtube.com/watch?v=abc12345678".toList)).downloadCalled = false
    ∧ (get_transcript (fun c => c.isAlphanum || c = '_')
        ⟨some [(0, "Hello".toList)], .ok none, none⟩
        ("https://www.youtube.com/watch?v=abc12345678".toList)).result
        = .ok (some (formatCaptionLines [(0, "Hello".toList)]), "youtube") :=
  c5_amended_captions_short_circuit (fun c => c.isAlphanum || c = '_')
    ⟨some [(0, "Hello".toList)], .ok none, none⟩
    ("https://www.youtube.com/watch?v=abc12345678".toList)
    [(0, "Hello".toList)] rfl
    ⟨(0, "Hello".toList), by decide, by decide⟩ (by decide)

/-- Helper for C9: the Whisper fallback never returns a successful pair
with empty text. -/
theorem whisperFallback_success_nonempty (env : GTEnv) (t s : String)
    (h : (whisperFallback env).result = .ok (some t, s)) : t ≠ "" := by
  unfold whisperFallback at h
  rcases env with ⟨ci, dl, wh⟩
  simp only at h
  cases dl with
  | error e => simp at h
  | ok p =>
    cases p with
    | none => simp at h
    | some path =>
      cases wh with
      | none => simp at h
      | some t2 =>
        by_cases ht2 : t2 = ""
        · simp [ht2] at h
        · simp [ht2] at h
          rw [← h.1]
          exact ht2

/-- C9: every successful transcript acquisition has non-empty text: if
`get_transcript` returns a transcript with a source it is non-empty, and
if `transcribe_with_gemini` returns a transcript with its source tag it
is non-empty; an empty intermediate transcript is turned into a failure
pair instead. -/
theorem c9_success_text_nonempty :
    (∀ (w : Char → Bool) (env : GTEnv) (url : List Char) (t s : String),
        (get_transcript w env url).result = .ok (some t, s) → t ≠ "")
    ∧ (∀ (genv : GeminiEnv) (t s : String),
        (transcribe_with_gemini genv).result = (some t, s) → t ≠ "") := by
  constructor
  · intro w env url t s h
    unfold get_transcript at h
    cases hx : extract_video_id w url with
    | none => rw [hx] at h; simp at h
    | some v =>
      rw [hx] at h
      cases hci : get_youtube_transcript env.captionItems with
      | none =>
        rw [hci] at h
        exact whisperFallback_success_nonempty env t s h
      | some p =>
        rw [hci] at h
        rcases p with ⟨t2, src⟩
        by_cases ht2 : t2 = ""
        · simp [ht2] at h
          exact whisperFallback_success_nonempty env t s h
        · simp [ht2] at h
          rw [← h.1]
          exact ht2
  · intro genv t s h
    unfold transcribe_with_gemini at h
    rcases genv with ⟨key, up, st, gen, fr, del⟩
    simp only at h
    by_cases hk : key = ""
    · simp [hk] at h
    · simp only [if_neg hk] at h
      cases up with
      | error e => simp at h
      | ok u =>
        cases st with
        | error e => simp at h
        | ok fstate =>
          cases fstate with
          | failed => simp at h
          | ready =>
            cases gen with
            | error e => simp at h
            | ok tx =>
              cases tx with
              | none => simp at h
              | some t2 =>
                by_cases ht2 : t2 = ""
                · simp [ht2] at h
                · simp [ht2] at h
                  rw [← h.1]
                  exact ht2

/-- C9 witness: a concrete successful caption acquisition and a concrete
successful Gemini transcription both have non-empty text. -/
theorem c9_witness :
    ("[00:00] Hello" : String) ≠ "" ∧ ("ok" : String) ≠ "" :=
  ⟨c9_success_text_nonempty.1 (fun c => c.isAlphanum || c = '_')
      ⟨some [(0, "Hello".toList)], .ok none, none⟩
      ("https://youtu.be/abc".toList) ("[00:00] Hello") ("youtube") rfl,
   c9_success_text_nonempty.2 ⟨"key", .ok (), .ok .ready, .ok (some ("ok")), "", true⟩
      ("ok") ("gemini") rfl⟩


/-- The retry loop invokes the wrapped operation at most once per allowed
attempt. -/
theorem retryGo_calls_le (op : ℕ → Except PyExc α) (isMatch : PyExc → Bool) (B : ℚ) :
    ∀ (fuel attempt : ℕ) (d : ℚ), (retryGo op isMatch B fuel attempt d).calls ≤ fuel + 1 := by
  intro fuel
  induction fuel with
  | zero =>
    intro attempt d
    rw [retryGo]
    cases hop : op attempt with
    | ok a => simp
    | error e =>
      by_cases hm : isMatch e
      · simp [hm]
      · simp [hm]
  | succ f ih =>
    intro attempt d
    rw [retryGo]
    cases hop : op attempt with
    | ok a => simp
    | error e =>
      by_cases hm : isMatch e
      · have h1 := ih (attempt + 1) (d * B)
        simp only [hm, if_true]
        omega
      · simp [hm]

/-- Every sleep performed by the retry loop follows the exponential
schedule `d, d*B, d*B^2, ...`. -/
theorem retryGo_sleeps_schedule (op : ℕ → Except PyExc α) (isMatch : PyExc → Bool) (B : ℚ) :
    ∀ (fuel attempt : ℕ) (d : ℚ),
      (retryGo op isMatch B fuel attempt d).sleeps
        = (List.range (retryGo op isMatch B fuel attempt d).sleeps.length).map
            (fun j => d * B ^ j) := by
  intro fuel
  induction fuel with
  | zero =>
    intro attempt d
    rw [retryGo]
    cases hop : op attempt with
    | ok a => simp
    | error e =>
      by_cases hm : isMatch e
      · simp [hm]
      · simp [hm]
  | succ f ih =>
    intro attempt d
    rw [retryGo]
    cases hop : op attempt with
    | ok a => simp
    | error e =>
      by_cases hm : isMatch e
      · simp only [hm, if_true]
        have hrec := ih (attempt + 1) (d * B)
        simp only [List.length_cons, List.range_succ_eq_map, List.map_cons, List.map_map]
        refine List.cons_eq_cons.mpr ⟨by ring, ?_⟩
        rw [hrec]
        simp only [List.length_map, List.length_range]
        congr 1
        funext j
        simp only [Function.comp_apply]
        rw [pow_succ]
        ring
      · simp [hm]

/-- When every allowed attempt raises an allow-listed exception, the loop
runs all attempts, sleeps between each pair, and re-raises the last
exception unmodified. -/
theorem retryGo_all_fail (op : ℕ → Except PyExc α) (isMatch : PyExc → Bool) (B : ℚ) :
    ∀ (fuel attempt : ℕ) (d : ℚ),
      (∀ k, attempt ≤ k → k ≤ attempt + fuel → ∃ e, op k = .error e ∧ isMatch e = true) →
      ∃ e, op (attempt + fuel) = .error e
        ∧ (retryGo op isMatch B fuel attempt d).result = .error e
        ∧ (retryGo op isMatch B fuel attempt d).calls = fuel + 1
        ∧ (retryGo op isMatch B fuel attempt d).sleeps.length = fuel := by
  intro fuel
  induction fuel with
  | zero =>
    intro attempt d hall
    obtain ⟨e, hop, hm⟩ := hall attempt (le_refl _) (by omega)
    refine ⟨e, by simpa using hop, ?_, ?_, ?_⟩ <;>
      rw [retryGo] <;> rw [hop] <;> simp [hm]
  | succ f ih =>
    intro attempt d hall
    obtain ⟨e, hop, hm⟩ := hall attempt (le_refl _) (by omega)
    obtain ⟨e2, hop2, hres2, hcalls2, hsleeps2⟩ :=
      ih (attempt + 1) (d * B) (fun k hk1 hk2 => hall k (by omega) (by omega))
    refine ⟨e2, by rw [show attempt + (f + 1) = attempt + 1 + f by omega]; exact hop2,
      ?_, ?_, ?_⟩ <;> rw [retryGo] <;> rw [hop] <;> simp [hm, hres2, hcalls2, hsleeps2]

/-- When the first `k - attempt` attempts raise allow-listed exceptions
and attempt `k` succeeds, the loop stops at attempt `k` with its value. -/
theorem retryGo_success_at (op : ℕ → Except PyExc α) (isMatch : PyExc → Bool) (B : ℚ) :
    ∀ (fuel attempt : ℕ) (d : ℚ) (k : ℕ) (a : α),
      attempt ≤ k → k ≤ attempt + fuel →
      (∀ j, attempt ≤ j → j < k → ∃ e, op j = .error e ∧ isMatch e = true) →
      op k = .ok a →
      (retryGo op isMatch B fuel attempt d).result = .ok (some a)
        ∧ (retryGo op isMatch B fuel attempt d).calls = k - attempt + 1
        ∧ (retryGo op isMatch B fuel attempt d).sleeps.length = k - attempt := by
  intro fuel
  induction fuel with
  | zero =>
    intro attempt d k a hk1 hk2 hpre hok
    have hk : k = attempt := by omega
    subst hk
    refine ⟨?_, ?_, ?_⟩ <;> rw [retryGo] <;> rw [hok] <;> simp
  | succ f ih =>
    intro attempt d k a hk1 hk2 hpre hok
    by_cases hk : k = attempt
    · subst hk
      refine ⟨?_, ?_, ?_⟩ <;> rw [retryGo] <;> rw [hok] <;> simp
    · obtain ⟨e, hop, hm⟩ := hpre attempt (le_refl _) (by omega)
      obtain ⟨hres2, hcalls2, hsleeps2⟩ :=
        ih (attempt + 1) (d * B) k a (by omega) (by omega)
          (fun j hj1 hj2 => hpre j (by omega) hj2) hok
      refine ⟨?_, ?_, ?_⟩ <;> rw [retryGo] <;> rw [hop] <;>
        simp [hm, hres2, hcalls2, hsleeps2] <;> omega

/-- When the first `k - attempt` attempts raise allow-listed exceptions
and attempt `k` raises an exception outside the allow-list, that
exception propagates at once after attempt `k`. -/
theorem retryGo_nonmatch_at (op : ℕ → Except PyExc α) (isMatch : PyExc → Bool) (B : ℚ) :
    ∀ (fuel attempt : ℕ) (d : ℚ) (k : ℕ) (e : PyExc),
      attempt ≤ k → k ≤ attempt + fuel →
      (∀ j, attempt ≤ j → j < k → ∃ e2, op j = .error e2 ∧ isMatch e2 = true) →
      op k = .error e → isMatch e = false →
      (retryGo op isMatch B fuel attempt d).result = .error e
        ∧ (retryGo op isMatch B fuel attempt d).calls = k - attempt + 1
        ∧ (retryGo op isMatch B fuel attempt d).sleeps.length = k - attempt := by
  intro fuel
  induction fuel with
  | zero =>
    intro attempt d k e hk1 hk2 hpre herr hnm
    have hk : k = attempt := by omega
    subst hk
    refine ⟨?_, ?_, ?_⟩ <;> rw [retryGo] <;> rw [herr] <;> simp [hnm]
  | succ f ih =>
    intro attempt d k e hk1 hk2 hpre herr hnm
    by_cases hk : k = attempt
    · subst hk
      refine ⟨?_, ?_, ?_⟩ <;> rw [retryGo] <;> rw [herr] <;> simp [hnm]
    · obtain ⟨e2, hop, hm⟩ := hpre attempt (le_refl _) (by omega)
      obtain ⟨hres2, hcalls2, hsleeps2⟩ :=
        ih (attempt + 1) (d * B) k e (by omega) (by omega)
          (fun j hj1 hj2 => hpre j (by omega) hj2) herr hnm
      refine ⟨?_, ?_, ?_⟩ <;> rw [retryGo] <;> rw [hop] <;>
        simp [hm, hres2, hcalls2, hsleeps2] <;> omega

/-- C6: for the retry policy with `N ≥ 1` attempts, initial delay `D` and
backoff `B`: the operation runs at most `N` times; the sleeps between
attempts follow the schedule `D * B ^ i` (so the wait after failed
attempt `k` is `D * B ^ (k-1)`); if every attempt raises an allow-listed
exception the last exception is re-raised unmodified after exactly `N`
invocations; a success at attempt `k` (after allow-listed failures)
returns that value immediately with `k` invocations; and an exception
outside the allow-list at attempt `k` propagates at once with `k`
invocations and no further retry. -/
theorem c6_retry_policy (op : ℕ → Except PyExc α) (isMatch : PyExc → Bool)
    (N : ℕ) (D B : ℚ) (hN : 1 ≤ N) :
    ((retry op isMatch N D B).calls ≤ N)
    ∧ ((retry op isMatch N D B).sleeps
        = (List.range (retry op isMatch N D B).sleeps.length).map (fun i => D * B ^ i))
    ∧ ((∀ k, 1 ≤ k → k ≤ N → ∃ e, op k = .error e ∧ isMatch e = true) →
        ∃ e, op N = .error e ∧ (retry op isMatch N D B).result = .error e
          ∧ (retry op isMatch N D B).calls = N
          ∧ (retry op isMatch N D B).sleeps.length = N - 1)
    ∧ (∀ k a, 1 ≤ k → k ≤ N →
        (∀ j, 1 ≤ j → j < k → ∃ e, op j = .error e ∧ isMatch e = true) →
        op k = .ok a →
        (retry op isMatch N D B).result = .ok (some a)
          ∧ (retry op isMatch N D B).calls = k
          ∧ (retry op isMatch N D B).sleeps.length = k - 1)
    ∧ (∀ k e, 1 ≤ k → k ≤ N →
        (∀ j, 1 ≤ j → j < k → ∃ e2, op j = .error e2 ∧ isMatch e2 = true) →
        op k = .error e → isMatch e = false →
        (retry op isMatch N D B).result = .error e
          ∧ (retry op isMatch N D B).calls = k
          ∧ (retry op isMatch N D B).sleeps.length = k - 1) := by
  obtain ⟨m, rfl⟩ : ∃ m, N = m + 1 := ⟨N - 1, by omega⟩
  have hretry : retry op isMatch (m + 1) D B = retryGo op isMatch B m 1 D := rfl
  rw [hretry]
  refine ⟨retryGo_calls_le op isMatch B m 1 D,
    retryGo_sleeps_schedule op isMatch B m 1 D, ?_, ?_, ?_⟩
  · intro hall
    obtain ⟨e, hop, hres, hcalls, hsleeps⟩ :=
      retryGo_all_fail op isMatch B m 1 D
        (fun k hk1 hk2 => hall k hk1 (by omega))
    refine ⟨e, ?_, hres, by omega, by omega⟩
    rw [show m + 1 = 1 + m by omega]
    exact hop
  · intro k a hk1 hk2 hpre hok
    obtain ⟨hres, hcalls, hsleeps⟩ :=
      retryGo_success_at op isMatch B m 1 D k a hk1 (by omega) hpre hok
    exact ⟨hres, by omega, by omega⟩
  · intro k e hk1 hk2 hpre herr hnm
    obtain ⟨hres, hcalls, hsleeps⟩ :=
      retryGo_nonmatch_at op isMatch B m 1 D k e hk1 (by omega) hpre herr hnm
    exact ⟨hres, by omega, by omega⟩

/-- C6 witness: the operation that fails once with an allow-listed error
and succeeds on the second of three attempts returns that value after
exactly two invocations and one sleep. -/
theorem c6_witness :
    (retry (fun k => if k = 1 then Except.error (PyExc.other ("boom")) else Except.ok (7:ℕ))
        (fun _ => true) 3 5 2).result = .ok (some 7)
    ∧ (retry (fun k => if k = 1 then Except.error (PyExc.other ("boom")) else Except.ok (7:ℕ))
        (fun _ => true) 3 5 2).calls = 2
    ∧ (retry (fun k => if k = 1 then Except.error (PyExc.other ("boom")) else Except.ok (7:ℕ))
        (fun _ => true) 3 5 2).sleeps.length = 2 - 1 :=
  (c6_retry_policy (fun k => if k = 1 then Except.error (PyExc.other ("boom")) else Except.ok (7:ℕ))
      (fun _ => true) 3 5 2 (by decide)).2.2.2.1 2 7 (by decide) (by decide)
    (by
      intro j hj1 hj2
      have hj : j = 1 := by omega
      subst hj
      exact ⟨.other ("boom"), rfl, rfl⟩)
    rfl

/-- Consuming a literal succeeds exactly on inputs that extend it. -/
theorem dropLit_eq_some {lit l r : List Char} (h : dropLit lit l = some r) :
    l = lit ++ r := by
  unfold dropLit at h
  split at h
  · rename_i hpre
    obtain ⟨t, ht⟩ := List.isPrefixOf_iff_prefix.mp hpre
    have hdrop : l.drop lit.length = t := by
      rw [← ht, List.drop_left]
    rw [hdrop] at h
    obtain rfl := Option.some.injEq _ _ ▸ h
    exact ht.symm
  · exact absurd h (by simp)

/-- The optional scheme group consumes a (possibly empty) prefix. -/
theorem stripScheme_decomp (l : List Char) : ∃ pre, l = pre ++ stripScheme l := by
  cases h1 : dropLit httpsLit l with
  | some r =>
    have hs : stripScheme l = r := by
      unfold stripScheme
      rw [h1]
    rw [hs]
    exact ⟨httpsLit, dropLit_eq_some h1⟩
  | none =>
    cases h2 : dropLit httpLit l with
    | some r =>
      have hs : stripScheme l = r := by
        unfold stripScheme
        rw [h1, h2]
      rw [hs]
      exact ⟨httpLit, dropLit_eq_some h2⟩
    | none =>
      have hs : stripScheme l = l := by
        unfold stripScheme
        rw [h1, h2]
      rw [hs]
      exact ⟨[], rfl⟩

/-- The optional `www.` group consumes a (possibly empty) prefix. -/
theorem stripWww_decomp (l : List Char) : ∃ pre, l = pre ++ stripWww l := by
  cases h1 : dropLit wwwLit l with
  | some r =>
    have hs : stripWww l = r := by
      unfold stripWww
      rw [h1]
    rw [hs]
    exact ⟨wwwLit, dropLit_eq_some h1⟩
  | none =>
    have hs : stripWww l = l := by
      unfold stripWww
      rw [h1]
    rw [hs]
    exact ⟨[], rfl⟩

/-- A successful tail match decomposes the input into the literal, one
`[\w-]` character and a remainder. -/
theorem matchTail_decomp {w : Char → Bool} {lit l : List Char}
    (h : matchTail w lit l = true) :
    ∃ c rest, l = lit ++ c :: rest ∧ isWordDash w c = true := by
  unfold matchTail at h
  cases hd : dropLit lit l with
  | none => rw [hd] at h; simp at h
  | some r =>
    rw [hd] at h
    cases r with
    | nil => simp at h
    | cons c rest => exact ⟨c, rest, dropLit_eq_some hd, h⟩

/-- `str.strip` returns a contiguous slice of its input. -/
theorem pyStripList_infix (l : List Char) : ∃ a b, l = a ++ pyStripList l ++ b := by
  obtain ⟨a, ha⟩ := List.dropWhile_suffix (l := l) pyWhitespace
  obtain ⟨b, hb⟩ :=
    List.dropWhile_suffix (l := (l.dropWhile pyWhitespace).reverse) pyWhitespace
  refine ⟨a, b.reverse, ?_⟩
  have hs1 : l.dropWhile pyWhitespace
      = pyStripList l ++ b.reverse := by
    have := congrArg List.reverse hb
    simp only [List.reverse_append, List.reverse_reverse] at this
    rw [← this]
    rfl
  conv_lhs => rw [← ha, hs1]
  rw [List.append_assoc]

/-- At a position where the input carries one alternation literal followed
by a `[\w-]` character, that alternative matches. -/
theorem tryAlt_isSome_of_decomp {w : Char → Bool} {lit : List Char} (c : Char)
    (rest : List Char) (hc : isWordDash w c = true) :
    (tryAlt w lit (lit ++ c :: rest)).isSome = true := by
  have hpre : lit.isPrefixOf (lit ++ c :: rest) = true :=
    List.isPrefixOf_iff_prefix.mpr (List.prefix_append lit (c :: rest))
  have hd : dropLit lit (lit ++ c :: rest) = some (c :: rest) := by
    unfold dropLit
    rw [if_pos hpre, List.drop_left]
  unfold tryAlt
  rw [hd]
  simp [hc]

/-- If any alternative matches at a position, the alternation matches. -/
theorem tryAlts_isSome {w : Char → Bool} {l : List Char}
    (h : (tryAlt w watchLit l).isSome = true ∨ (tryAlt w shortLit l).isSome = true
      ∨ (tryAlt w embedLit l).isSome = true) :
    (tryAlts w l).isSome = true := by
  unfold tryAlts
  cases h1 : tryAlt w watchLit l with
  | some v => simp
  | none =>
    cases h2 : tryAlt w shortLit l with
    | some v => simp
    | none =>
      rcases h with ha | hb | hc
      · rw [h1] at ha
        simp at ha
      · rw [h2] at hb
        simp at hb
      · exact hc

/-- If the alternation matches at some position of the input, the search
finds a (possibly earlier) match. -/
theorem reSearch_isSome_of_split (w : Char → Bool) :
    ∀ (A rest : List Char), (tryAlts w rest).isSome = true →
      (reSearchExtract w (A ++ rest)).isSome = true := by
  intro A
  induction A with
  | nil =>
    intro rest h
    cases rest with
    | nil =>
      have hnone : tryAlts w [] = none := rfl
      rw [hnone] at h
      simp at h
    | cons c cs =>
      rw [List.nil_append, reSearchExtract]
      cases h2 : tryAlts w (c :: cs) with
      | some v => simp
      | none =>
        rw [h2] at h
        simp at h
  | cons a A ih =>
    intro rest h
    rw [List.cons_append, reSearchExtract]
    cases h2 : tryAlts w (a :: (A ++ rest)) with
    | some v => simp
    | none => exact ih rest h

/-- If one of the three validator patterns matches the stripped URL, the
extraction regex finds a match somewhere in the original URL. -/
theorem extract_isSome_of_reMatch {w : Char → Bool} {lit url : List Char}
    (hlit : lit = watchLit ∨ lit = shortLit ∨ lit = embedLit)
    (hp : reMatchYoutubePattern w lit (pyStripList url) = true) :
    (extract_video_id w url).isSome = true := by
  unfold reMatchYoutubePattern at hp
  obtain ⟨c, rest, hdec, hc⟩ := matchTail_decomp hp
  obtain ⟨p2, hp2⟩ := stripWww_decomp (stripScheme (pyStripList url))
  obtain ⟨p1, hp1⟩ := stripScheme_decomp (pyStripList url)
  obtain ⟨a, b, hab⟩ := pyStripList_infix url
  have hurl : url = (a ++ p1 ++ p2) ++ (lit ++ c :: (rest ++ b)) := by
    rw [hab]
    conv_lhs => rw [hp1]
    conv_lhs => rw [hp2, hdec]
    simp [List.append_assoc]
  have halt : (tryAlt w lit (lit ++ c :: (rest ++ b))).isSome = true :=
    tryAlt_isSome_of_decomp c (rest ++ b) hc
  have halts : (tryAlts w (lit ++ c :: (rest ++ b))).isSome = true := by
    rcases hlit with rfl | rfl | rfl
    · exact tryAlts_isSome (Or.inl halt)
    · exact tryAlts_isSome (Or.inr (Or.inl halt))
    · exact tryAlts_isSome (Or.inr (Or.inr halt))
  have := reSearch_isSome_of_split w (a ++ p1 ++ p2) (lit ++ c :: (rest ++ b)) halts
  unfold extract_video_id
  rw [hurl]
  exact this

/-- C10: every URL accepted by `validate_youtube_url` yields a video id
from `extract_video_id` — the validator never accepts a URL the pipeline
cannot extract an id from.  Both regexes are parameterized by the same
`\w` character predicate. -/
theorem c10_validate_implies_extract (w : Char → Bool) (url : List Char)
    (h : (validate_youtube_url w url).1 = true) :
    (extract_video_id w url).isSome = true := by
  unfold validate_youtube_url at h
  by_cases h0 : url = [] ∨ pyStripList url = []
  · rw [if_pos h0] at h
    simp at h
  · rw [if_neg h0] at h
    by_cases hm : (reMatchYoutubePattern w watchLit (pyStripList url)
        || reMatchYoutubePattern w shortLit (pyStripList url)
        || reMatchYoutubePattern w embedLit (pyStripList url)) = true
    · rcases (Bool.or_eq_true _ _).mp hm with h12 | h3
      · rcases (Bool.or_eq_true _ _).mp h12 with h1 | h2
        · exact extract_isSome_of_reMatch (Or.inl rfl) h1
        · exact extract_isSome_of_reMatch (Or.inr (Or.inl rfl)) h2
      · exact extract_isSome_of_reMatch (Or.inr (Or.inr rfl)) h3
    · rw [if_neg hm] at h
      simp at h

/-- C10 witness: a concrete accepted URL from which the extractor then
returns an id. -/
theorem c10_witness :
    (validate_youtube_url (fun c => c.isAlphanum || c = '_')
        ("https://www.youtube.com/watch?v=abc12345678".toList)).1 = true
    ∧ (extract_video_id (fun c => c.isAlphanum || c = '_')
        ("https://www.youtube.com/watch?v=abc12345678".toList)).isSome = true :=
  ⟨by decide,
   c10_validate_implies_extract (fun c => c.isAlphanum || c = '_')
     ("https://www.youtube.com/watch?v=abc12345678".toList) (by decide)⟩

/-- Latent defect recorded for reference: the retried `_download` phase
(lines 224-269), were the duration guard ever passed, deletes nothing on
failure — after three attempts that all raise, the three `mkstemp`-created
`.m4a` files are still present at the moment the `AudioDownloadError`
propagates. -/
theorem downloadAttemptPhase_leaves_temp_files :
    downloadAttemptPhase ⟨.ok 0, fun _ => .raises (.other ("network"))⟩ ⟨[], 0⟩
      = (.error .audioDownloadError, ⟨[tmpM4a 2, tmpM4a 1, tmpM4a 0], 3⟩) := rfl
